import Mathlib

set_option linter.unusedVariables false

/-!
Shallow embedding of the Glamora marketplace contracts
(`src/contracts/ContentPayment.sol`, `src/contracts/CreatorProfile.sol`,
which also contains `GlamoraHub`).

Modelling conventions:
* An EVM `address` is a `Nat`; `0` is the zero address, which is also the
  default value a Solidity `mapping` returns for a key that was never written.
* Solidity mappings are total functions returning the default value for
  unwritten keys (`defaultContent`, `defaultCreator`, `false`, `[]`).
* `uint256` is `Nat`.  Solidity ≥0.8 reverts on overflow rather than
  wrapping, and no claim here depends on values near `2^256`, so plain `Nat`
  arithmetic is the faithful model at the scales any claim quantifies over.
* A function that can `revert` is modelled as returning `Except Err …`;
  an `Except.error` result corresponds to an EVM revert, which rolls back
  every state write of the whole enclosing transaction, so the caller's
  state is unchanged exactly when the result is `Except.error`.
* The `require(cond, "msg")` failures are mapped to the error kinds the
  specification names for them (e.g. "Content not found or inactive" ↦
  `NotFound`, "Insufficient payment" ↦ `InsufficientPayment`).
* `payable(x).transfer(amount)` calls the external payment collaborator and
  reverts the enclosing transaction if it fails.  The embedding threads the
  collaborator's outcome in as booleans `transferOk` / `refundOk`
  (one per potential external call) and returns `TransferFailed` when the
  outcome is failure, mirroring the revert.
* `msg.sender` is an explicit `sender` argument on the functions whose
  source reads it; `registerCreator` and the ledger's `createContent` take
  the caller's identity in a data argument instead and never read
  `msg.sender`, so their embeddings carry a `sender` argument only to make
  caller-(in)dependence statable, and their bodies ignore it, exactly as
  the source bodies do.
* String length checks in the source are on `bytes(s).length`, i.e. the
  UTF-8 byte length, modelled by `String.utf8ByteSize`.
-/

/-- An EVM address; `0` is the zero address / mapping default. -/
abbrev Address := Nat

/-- The error kinds of the specification, one per distinct `require`
failure class of the contracts (an `Except.error` models an EVM revert). -/
inductive Err where
  | InvalidInput
  | AlreadyRegistered
  | NotRegistered
  | NotFound
  | Forbidden
  | AlreadyPurchased
  | SelfPurchaseForbidden
  | InsufficientPayment
  | TransferFailed
deriving Repr, DecidableEq

/-- `true` iff an `Except` value is a success. -/
def isOkB {ε α : Type} : Except ε α → Bool
  | .ok _ => true
  | .error _ => false

/-- `struct Content` of `ContentPayment.sol`. -/
structure Content where
  contentId : Nat
  creator : Address
  title : String
  contentHash : String
  price : Nat
  createdAt : Nat
  isActive : Bool
deriving Repr, DecidableEq

/-- The value `contents[id]` yields for an id that was never written:
every field is the Solidity zero value. -/
def defaultContent : Content :=
  { contentId := 0, creator := 0, title := "", contentHash := "",
    price := 0, createdAt := 0, isActive := false }

/-- Point update of a `Nat`-keyed mapping. -/
def setContent (m : Nat → Content) (k : Nat) (v : Content) : Nat → Content :=
  fun i => if i = k then v else m i

/-- Point update of the nested `userAccess` mapping. -/
def setAccess (m : Address → Nat → Bool) (u : Address) (c : Nat) (v : Bool) :
    Address → Nat → Bool :=
  fun a i => if a = u ∧ i = c then v else m a i

/-- The storage of the `ContentPayment` contract. -/
structure PaymentState where
  contents : Nat → Content
  userAccess : Address → Nat → Bool
  creatorContents : Address → List Nat
  nextContentId : Nat
  totalRevenue : Nat

/-- `ContentPayment`'s storage right after deployment:
all mappings empty, `nextContentId = 1`, `totalRevenue = 0`. -/
def initPaymentState : PaymentState :=
  { contents := fun _ => defaultContent
    userAccess := fun _ _ => false
    creatorContents := fun _ => []
    nextContentId := 1
    totalRevenue := 0 }

namespace ContentPayment

/-- `ContentPayment.createContent`: validates title, hash and price, stores
the new `Content` under `nextContentId`, appends the id to the creator's
list and increments the counter.  `sender` models `msg.sender`; the source
body never reads it. -/
def createContent (s : PaymentState) (sender : Address) (creator : Address)
    (title contentHash : String) (price : Nat) (timestamp : Nat) :
    Except Err (PaymentState × Nat) :=
  if title.utf8ByteSize = 0 then .error .InvalidInput
  else if contentHash.utf8ByteSize = 0 then .error .InvalidInput
  else if price = 0 then .error .InvalidInput
  else
    let contentId := s.nextContentId
    let c : Content :=
      { contentId := contentId, creator := creator, title := title,
        contentHash := contentHash, price := price, createdAt := timestamp,
        isActive := true }
    .ok ({ s with
            contents := setContent s.contents contentId c
            creatorContents := fun a =>
              if a = creator then s.creatorContents a ++ [contentId]
              else s.creatorContents a
            nextContentId := s.nextContentId + 1 },
         contentId)

/-- The balance effects of a successful purchase: what the external payment
collaborator transfers to the creator and refunds to the buyer. -/
structure PurchaseEffects where
  creatorCredit : Nat
  buyerRefund : Nat
deriving Repr, DecidableEq

/-- `ContentPayment.purchaseContent`: checks active, payment, grant and
self-purchase in source order, then writes the grant, transfers `price` to
the creator, adds `price` to `totalRevenue` and refunds any overpayment.
`transferOk` / `refundOk` are the external payment collaborator's outcomes
for the two potential `transfer` calls; a failed call reverts the whole
transaction (hence the grant written before it is rolled back), modelled by
returning `Except.error` and discarding the intermediate state. -/
def purchaseContent (s : PaymentState) (buyer : Address) (contentId : Nat)
    (amountPaid : Nat) (transferOk refundOk : Bool) :
    Except Err (PaymentState × PurchaseEffects) :=
  let content := s.contents contentId
  if content.isActive = false then .error .NotFound
  else if amountPaid < content.price then .error .InsufficientPayment
  else if s.userAccess buyer contentId = true then .error .AlreadyPurchased
  else if buyer = content.creator then .error .SelfPurchaseForbidden
  else
    -- the grant is written here in the source; it survives only if the
    -- external calls below succeed, otherwise the revert rolls it back
    let granted := { s with userAccess := setAccess s.userAccess buyer contentId true }
    if transferOk = false then .error .TransferFailed
    else
      let credited := { granted with totalRevenue := granted.totalRevenue + content.price }
      if content.price < amountPaid then
        if refundOk = false then .error .TransferFailed
        else .ok (credited,
                  { creatorCredit := content.price,
                    buyerRefund := amountPaid - content.price })
      else .ok (credited, { creatorCredit := content.price, buyerRefund := 0 })

/-- `ContentPayment.updateContentPrice`: only the creator of an active
content may set a new positive price. -/
def updateContentPrice (s : PaymentState) (sender : Address) (contentId : Nat)
    (newPrice : Nat) : Except Err PaymentState :=
  let content := s.contents contentId
  if content.isActive = false then .error .NotFound
  else if ¬ content.creator = sender then .error .Forbidden
  else if newPrice = 0 then .error .InvalidInput
  else .ok { s with contents := setContent s.contents contentId { content with price := newPrice } }

/-- `ContentPayment.hasAccess`: the creator recorded for the id always has
access; anyone else has access iff a purchase grant exists. -/
def hasAccess (s : PaymentState) (user : Address) (contentId : Nat) : Bool :=
  if (s.contents contentId).creator = user then true
  else s.userAccess user contentId

/-- `ContentPayment.getContent`: returns the record, failing when it is
missing or inactive. -/
def getContent (s : PaymentState) (contentId : Nat) : Except Err Content :=
  if (s.contents contentId).isActive = false then .error .NotFound
  else .ok (s.contents contentId)

/-- `ContentPayment.getCreatorContent`. -/
def getCreatorContent (s : PaymentState) (creator : Address) : List Nat :=
  s.creatorContents creator

/-- `ContentPayment.deactivateContent`: soft delete by the creator. -/
def deactivateContent (s : PaymentState) (sender : Address) (contentId : Nat) :
    Except Err PaymentState :=
  let content := s.contents contentId
  if content.isActive = false then .error .NotFound
  else if ¬ content.creator = sender then .error .Forbidden
  else .ok { s with contents := setContent s.contents contentId { content with isActive := false } }

end ContentPayment

/-- `struct Creator` of `CreatorProfile.sol`. -/

structure Creator where
  username : String
  bio : String
  wallet : Address
  createdAt : Nat
  isActive : Bool
deriving Repr, DecidableEq

/-- The value `creators[a]` yields for an address that was never written. -/
def defaultCreator : Creator :=
  { username := "", bio := "", wallet := 0, createdAt := 0, isActive := false }

/-- Point update of the `creators` mapping. -/
def setCreator (m : Address → Creator) (k : Address) (v : Creator) :
    Address → Creator :=
  fun a => if a = k then v else m a

/-- The storage of the `CreatorProfile` contract. -/
structure ProfileState where
  creators : Address → Creator
  totalCreators : Nat

/-- `CreatorProfile`'s storage right after deployment. -/
def initProfileState : ProfileState :=
  { creators := fun _ => defaultCreator, totalCreators := 0 }

namespace CreatorProfile

/-- `CreatorProfile.registerCreator`: validates username and bio, requires
the identity not already registered, stores the record and increments
`totalCreators`.  `sender` models `msg.sender`; the source body never
reads it — the registered identity is the `creator` data argument. -/
def registerCreator (s : ProfileState) (sender : Address) (creator : Address)
    (username bio : String) (timestamp : Nat) : Except Err ProfileState :=
  if username.utf8ByteSize = 0 then .error .InvalidInput
  else if 50 < username.utf8ByteSize then .error .InvalidInput
  else if 500 < bio.utf8ByteSize then .error .InvalidInput
  else if (s.creators creator).isActive = true then .error .AlreadyRegistered
  else
    let rec0 : Creator :=
      { username := username, bio := bio, wallet := creator,
        createdAt := timestamp, isActive := true }
    .ok { creators := setCreator s.creators creator rec0
          totalCreators := s.totalCreators + 1 }

/-- `CreatorProfile.updateCreator`: the caller must already be registered;
overwrites the caller's own username and bio. -/
def updateCreator (s : ProfileState) (sender : Address) (username bio : String) :
    Except Err ProfileState :=
  if (s.creators sender).isActive = false then .error .NotRegistered
  else if username.utf8ByteSize = 0 then .error .InvalidInput
  else if 50 < username.utf8ByteSize then .error .InvalidInput
  else if 500 < bio.utf8ByteSize then .error .InvalidInput
  else
    let updated := { s.creators sender with username := username, bio := bio }
    .ok { s with creators := setCreator s.creators sender updated }

/-- `CreatorProfile.isCreator`. -/
def isCreator (s : ProfileState) (wallet : Address) : Bool :=
  (s.creators wallet).isActive

/-- `CreatorProfile.getCreator`. -/
def getCreator (s : ProfileState) (wallet : Address) : Except Err Creator :=
  if (s.creators wallet).isActive = false then .error .NotFound
  else .ok (s.creators wallet)

end CreatorProfile

/-- A direct call to one of `ContentPayment`'s mutating entry points,
with the external payment collaborator's outcomes attached to purchases. -/
inductive Op where
  | create (sender creator : Address) (title contentHash : String)
      (price timestamp : Nat)
  | purchase (buyer : Address) (contentId amountPaid : Nat)
      (transferOk refundOk : Bool)
  | updatePrice (sender : Address) (contentId newPrice : Nat)
  | deactivate (sender : Address) (contentId : Nat)

/-- The ledger state an external observer sees after one call: the new
state on success, the unchanged state after a revert. -/
def step (s : PaymentState) : Op → PaymentState
  | .create sender creator title contentHash price timestamp =>
    match ContentPayment.createContent s sender creator title contentHash price timestamp with
    | .ok (s', _) => s'
    | .error _ => s
  | .purchase buyer contentId amountPaid transferOk refundOk =>
    match ContentPayment.purchaseContent s buyer contentId amountPaid transferOk refundOk with
    | .ok (s', _) => s'
    | .error _ => s
  | .updatePrice sender contentId newPrice =>
    match ContentPayment.updateContentPrice s sender contentId newPrice with
    | .ok s' => s'
    | .error _ => s
  | .deactivate sender contentId =>
    match ContentPayment.deactivateContent s sender contentId with
    | .ok s' => s'
    | .error _ => s

/-- Run a sequence of ledger calls left to right. -/
def run (s : PaymentState) : List Op → PaymentState
  | [] => s
  | op :: ops => run (step s op) ops

/-- The price charged by `op` on `s` when `op` is a successful purchase
(the price in force at that moment), nothing otherwise. -/
def stepRevenueLog (s : PaymentState) : Op → List Nat
  | .purchase buyer contentId amountPaid transferOk refundOk =>
    match ContentPayment.purchaseContent s buyer contentId amountPaid transferOk refundOk with
    | .ok _ => [(s.contents contentId).price]
    | .error _ => []
  | _ => []

/-- The prices, in order, of the successful purchases in a call sequence,
each taken at the moment its purchase executed. -/
def runRevenueLog (s : PaymentState) : List Op → List Nat
  | [] => []
  | op :: ops => stepRevenueLog s op ++ runRevenueLog (step s op) ops

/-- The content id assigned by `op` on `s` when `op` is a successful
`createContent` call, nothing otherwise. -/
def stepIdLog (s : PaymentState) : Op → List Nat
  | .create sender creator title contentHash price timestamp =>
    match ContentPayment.createContent s sender creator title contentHash price timestamp with
    | .ok (_, contentId) => [contentId]
    | .error _ => []
  | _ => []

/-- The content ids assigned by the successful `createContent` calls of a
call sequence, in order of assignment. -/
def runIdLog (s : PaymentState) : List Op → List Nat
  | [] => []
  | op :: ops => stepIdLog s op ++ runIdLog (step s op) ops

/-- The combined storage the `GlamoraHub` contract orchestrates. -/
structure HubState where
  profile : ProfileState
  payment : PaymentState

/-- Hub state right after the `GlamoraHub` constructor deployed both
sub-contracts. -/
def initHubState : HubState :=
  { profile := initProfileState, payment := initPaymentState }

namespace GlamoraHub

/-- `GlamoraHub.createContent`: gate on `isCreator(msg.sender)`, then
delegate to the ledger with `msg.sender` as the creator. -/
def createContent (s : HubState) (sender : Address)
    (title contentHash : String) (price : Nat) (timestamp : Nat) :
    Except Err (HubState × Nat) :=
  if CreatorProfile.isCreator s.profile sender = false then .error .NotRegistered
  else
    match ContentPayment.createContent s.payment sender sender title contentHash price timestamp with
    | .error e => .error e
    | .ok (ps, contentId) => .ok ({ s with payment := ps }, contentId)

/-- `GlamoraHub.registerAndCreateContent`: registers `msg.sender` first when
not yet a creator, then creates the content.  Both sub-calls run inside the
one Hub transaction, so a revert in `createContent` also rolls back the
registration: an `Except.error` result discards the intermediate profile
state. -/
def registerAndCreateContent (s : HubState) (sender : Address)
    (username bio title contentHash : String) (price : Nat) (timestamp : Nat) :
    Except Err (HubState × Nat) :=
  match (if CreatorProfile.isCreator s.profile sender = true then .ok s.profile
         else CreatorProfile.registerCreator s.profile sender sender username bio timestamp) with
  | .error e => .error e
  | .ok p =>
    match ContentPayment.createContent s.payment sender sender title contentHash price timestamp with
    | .error e => .error e
    | .ok (ps, contentId) => .ok ({ profile := p, payment := ps }, contentId)

/-- `GlamoraHub.isCreator`. -/
def isCreator (s : HubState) (user : Address) : Bool :=
  CreatorProfile.isCreator s.profile user

/-- `GlamoraHub.hasAccessToContent`. -/
def hasAccessToContent (s : HubState) (user : Address) (contentId : Nat) : Bool :=
  ContentPayment.hasAccess s.payment user contentId

/-- The post-state of a `registerAndCreateContent` call as an external
observer sees it: on success the new state, on revert the old one. -/
def registerAndCreateStep (s : HubState) (sender : Address)
    (username bio title contentHash : String) (price : Nat) (timestamp : Nat) :
    HubState :=
  match registerAndCreateContent s sender username bio title contentHash price timestamp with
  | .ok (s', _) => s'
  | .error _ => s

end GlamoraHub

/-! ## Inversion lemmas for the ledger operations -/

namespace ContentPayment

/-- The state a successful purchase commits: the access grant is recorded
and the price in force is added to `totalRevenue`; nothing else changes. -/
def purchaseOkState (s : PaymentState) (buyer : Address) (contentId : Nat) :
    PaymentState :=
  { s with
      userAccess := setAccess s.userAccess buyer contentId true
      totalRevenue := s.totalRevenue + (s.contents contentId).price }

/-- The state a successful `createContent` commits. -/
def createOkState (s : PaymentState) (creator : Address)
    (title contentHash : String) (price timestamp : Nat) : PaymentState :=
  { s with
      contents := setContent s.contents s.nextContentId
        { contentId := s.nextContentId, creator := creator, title := title,
          contentHash := contentHash, price := price, createdAt := timestamp,
          isActive := true }
      creatorContents := fun a =>
        if a = creator then s.creatorContents a ++ [s.nextContentId]
        else s.creatorContents a
      nextContentId := s.nextContentId + 1 }

theorem createContent_ok_elim {s : PaymentState} {sender creator : Address}
    {title contentHash : String} {price timestamp : Nat}
    {r : PaymentState × Nat}
    (h : createContent s sender creator title contentHash price timestamp = .ok r) :
    title.utf8ByteSize ≠ 0 ∧ contentHash.utf8ByteSize ≠ 0 ∧ price ≠ 0 ∧
    r = (createOkState s creator title contentHash price timestamp, s.nextContentId) := by
  unfold createContent at h
  split_ifs at h with h1 h2 h3
  simp only [Except.ok.injEq] at h
  exact ⟨h1, h2, h3, h.symm ▸ rfl⟩

theorem createContent_ok_intro {s : PaymentState} {sender creator : Address}
    {title contentHash : String} {price timestamp : Nat}
    (h1 : title.utf8ByteSize ≠ 0) (h2 : contentHash.utf8ByteSize ≠ 0)
    (h3 : price ≠ 0) :
    createContent s sender creator title contentHash price timestamp =
      .ok (createOkState s creator title contentHash price timestamp, s.nextContentId) := by
  unfold createContent createOkState
  simp [h1, h2, h3]

theorem purchaseContent_ok_elim {s : PaymentState} {buyer : Address}
    {contentId amountPaid : Nat} {transferOk refundOk : Bool}
    {r : PaymentState × PurchaseEffects}
    (h : purchaseContent s buyer contentId amountPaid transferOk refundOk = .ok r) :
    (s.contents contentId).isActive = true ∧
    (s.contents contentId).price ≤ amountPaid ∧
    s.userAccess buyer contentId = false ∧
    buyer ≠ (s.contents contentId).creator ∧
    transferOk = true ∧
    r = (purchaseOkState s buyer contentId,
         { creatorCredit := (s.contents contentId).price,
           buyerRefund := amountPaid - (s.contents contentId).price }) := by
  unfold purchaseContent at h
  by_cases c1 : (s.contents contentId).isActive = false
  · rw [if_pos c1] at h; exact absurd h (by simp)
  rw [if_neg c1] at h
  by_cases c2 : amountPaid < (s.contents contentId).price
  · rw [if_pos c2] at h; exact absurd h (by simp)
  rw [if_neg c2] at h
  by_cases c3 : s.userAccess buyer contentId = true
  · rw [if_pos c3] at h; exact absurd h (by simp)
  rw [if_neg c3] at h
  by_cases c4 : buyer = (s.contents contentId).creator
  · rw [if_pos c4] at h; exact absurd h (by simp)
  rw [if_neg c4] at h
  by_cases c5 : transferOk = false
  · rw [if_pos c5] at h; exact absurd h (by simp)
  rw [if_neg c5] at h
  refine ⟨by simpa using c1, by omega, by simpa using c3, c4,
    by simpa using c5, ?_⟩
  by_cases c6 : (s.contents contentId).price < amountPaid
  · rw [if_pos c6] at h
    by_cases c7 : refundOk = false
    · rw [if_pos c7] at h; exact absurd h (by simp)
    rw [if_neg c7] at h
    simp only [Except.ok.injEq] at h
    rw [← h]
    simp [purchaseOkState]
  · rw [if_neg c6] at h
    simp only [Except.ok.injEq] at h
    have h0 : amountPaid - (s.contents contentId).price = 0 := by omega
    rw [← h]
    simp [purchaseOkState, h0]

theorem purchaseContent_ok_intro {s : PaymentState} {buyer : Address}
    {contentId amountPaid : Nat} {transferOk refundOk : Bool}
    (h1 : (s.contents contentId).isActive = true)
    (h2 : (s.contents contentId).price ≤ amountPaid)
    (h3 : s.userAccess buyer contentId = false)
    (h4 : buyer ≠ (s.contents contentId).creator)
    (h5 : transferOk = true)
    (h6 : (s.contents contentId).price < amountPaid → refundOk = true) :
    purchaseContent s buyer contentId amountPaid transferOk refundOk =
      .ok (purchaseOkState s buyer contentId,
           { creatorCredit := (s.contents contentId).price,
             buyerRefund := amountPaid - (s.contents contentId).price }) := by
  unfold purchaseContent
  rw [if_neg (by simp [h1]), if_neg (by omega), if_neg (by simp [h3]),
    if_neg h4, if_neg (by simp [h5])]
  by_cases hlt : (s.contents contentId).price < amountPaid
  · rw [if_pos hlt, if_neg (by simp [h6 hlt])]
    simp [purchaseOkState]
  · rw [if_neg hlt]
    have h0 : amountPaid - (s.contents contentId).price = 0 := by omega
    simp [purchaseOkState, h0]

/-- The state a successful `updateContentPrice` commits. -/
def updatePriceOkState (s : PaymentState) (contentId newPrice : Nat) :
    PaymentState :=
  { s with contents := setContent s.contents contentId ({ s.contents contentId with price := newPrice }) }

/-- The state a successful `deactivateContent` commits. -/
def deactivateOkState (s : PaymentState) (contentId : Nat) : PaymentState :=
  { s with contents := setContent s.contents contentId ({ s.contents contentId with isActive := false }) }

theorem updateContentPrice_ok_elim {s : PaymentState} {sender : Address}
    {contentId newPrice : Nat} {s' : PaymentState}
    (h : updateContentPrice s sender contentId newPrice = .ok s') :
    (s.contents contentId).isActive = true ∧
    (s.contents contentId).creator = sender ∧ newPrice ≠ 0 ∧
    s' = updatePriceOkState s contentId newPrice := by
  unfold updateContentPrice at h
  by_cases c1 : (s.contents contentId).isActive = false
  · rw [if_pos c1] at h; exact absurd h (by simp)
  rw [if_neg c1] at h
  by_cases c2 : ¬ (s.contents contentId).creator = sender
  · rw [if_pos c2] at h; exact absurd h (by simp)
  rw [if_neg c2] at h
  by_cases c3 : newPrice = 0
  · rw [if_pos c3] at h; exact absurd h (by simp)
  rw [if_neg c3] at h
  simp only [Except.ok.injEq] at h
  refine ⟨by simpa using c1, by simpa using c2, c3, ?_⟩
  rw [← h]
  simp [updatePriceOkState]

theorem deactivateContent_ok_elim {s : PaymentState} {sender : Address}
    {contentId : Nat} {s' : PaymentState}
    (h : deactivateContent s sender contentId = .ok s') :
    (s.contents contentId).isActive = true ∧
    (s.contents contentId).creator = sender ∧
    s' = deactivateOkState s contentId := by
  unfold deactivateContent at h
  by_cases c1 : (s.contents contentId).isActive = false
  · rw [if_pos c1] at h; exact absurd h (by simp)
  rw [if_neg c1] at h
  by_cases c2 : ¬ (s.contents contentId).creator = sender
  · rw [if_pos c2] at h; exact absurd h (by simp)
  rw [if_neg c2] at h
  simp only [Except.ok.injEq] at h
  refine ⟨by simpa using c1, by simpa using c2, ?_⟩
  rw [← h]
  simp [deactivateOkState]

end ContentPayment

/-! ## Step and run lemmas for the call-sequence model -/

theorem step_totalRevenue (s : PaymentState) (op : Op) :
    (step s op).totalRevenue = s.totalRevenue + (stepRevenueLog s op).sum := by
  cases op with
  | create sender creator title contentHash price timestamp =>
    simp only [step, stepRevenueLog]
    cases h : ContentPayment.createContent s sender creator title contentHash price timestamp with
    | error e => simp
    | ok r =>
      obtain ⟨-, -, -, hr⟩ := ContentPayment.createContent_ok_elim h
      subst hr
      simp [ContentPayment.createOkState]
  | purchase buyer contentId amountPaid transferOk refundOk =>
    simp only [step, stepRevenueLog]
    cases h : ContentPayment.purchaseContent s buyer contentId amountPaid transferOk refundOk with
    | error e => simp
    | ok r =>
      obtain ⟨-, -, -, -, -, hr⟩ := ContentPayment.purchaseContent_ok_elim h
      subst hr
      simp [ContentPayment.purchaseOkState]
  | updatePrice sender contentId newPrice =>
    simp only [step, stepRevenueLog]
    cases h : ContentPayment.updateContentPrice s sender contentId newPrice with
    | error e => simp
    | ok s' =>
      obtain ⟨-, -, -, hr⟩ := ContentPayment.updateContentPrice_ok_elim h
      subst hr
      simp [ContentPayment.updatePriceOkState]
  | deactivate sender contentId =>
    simp only [step, stepRevenueLog]
    cases h : ContentPayment.deactivateContent s sender contentId with
    | error e => simp
    | ok s' =>
      obtain ⟨-, -, hr⟩ := ContentPayment.deactivateContent_ok_elim h
      subst hr
      simp [ContentPayment.deactivateOkState]

theorem run_totalRevenue (ops : List Op) : ∀ s : PaymentState,
    (run s ops).totalRevenue = s.totalRevenue + (runRevenueLog s ops).sum := by
  induction ops with
  | nil => intro s; simp [run, runRevenueLog]
  | cons op ops ih =>
    intro s
    simp only [run, runRevenueLog, List.sum_append]
    rw [ih (step s op), step_totalRevenue]
    omega

theorem step_nextContentId (s : PaymentState) (op : Op) :
    (step s op).nextContentId = s.nextContentId + (stepIdLog s op).length ∧
    stepIdLog s op = List.range' s.nextContentId (stepIdLog s op).length := by
  cases op with
  | create sender creator title contentHash price timestamp =>
    simp only [step, stepIdLog]
    cases h : ContentPayment.createContent s sender creator title contentHash price timestamp with
    | error e => simp
    | ok r =>
      obtain ⟨-, -, -, hr⟩ := ContentPayment.createContent_ok_elim h
      subst hr
      simp [ContentPayment.createOkState]
  | purchase buyer contentId amountPaid transferOk refundOk =>
    simp only [step, stepIdLog]
    cases h : ContentPayment.purchaseContent s buyer contentId amountPaid transferOk refundOk with
    | error e => simp
    | ok r =>
      obtain ⟨-, -, -, -, -, hr⟩ := ContentPayment.purchaseContent_ok_elim h
      subst hr
      simp [ContentPayment.purchaseOkState]
  | updatePrice sender contentId newPrice =>
    simp only [step, stepIdLog]
    cases h : ContentPayment.updateContentPrice s sender contentId newPrice with
    | error e => simp
    | ok s' =>
      obtain ⟨-, -, -, hr⟩ := ContentPayment.updateContentPrice_ok_elim h
      subst hr
      simp [ContentPayment.updatePriceOkState]
  | deactivate sender contentId =>
    simp only [step, stepIdLog]
    cases h : ContentPayment.deactivateContent s sender contentId with
    | error e => simp
    | ok s' =>
      obtain ⟨-, -, hr⟩ := ContentPayment.deactivateContent_ok_elim h
      subst hr
      simp [ContentPayment.deactivateOkState]

theorem run_nextContentId_le (ops : List Op) : ∀ s : PaymentState,
    s.nextContentId ≤ (run s ops).nextContentId := by
  induction ops with
  | nil => intro s; simp [run]
  | cons op ops ih =>
    intro s
    have h := (step_nextContentId s op).1
    calc s.nextContentId ≤ (step s op).nextContentId := by omega
      _ ≤ (run (step s op) ops).nextContentId := ih (step s op)

theorem run_idLog (ops : List Op) : ∀ s : PaymentState,
    runIdLog s ops =
      List.range' s.nextContentId ((run s ops).nextContentId - s.nextContentId) := by
  induction ops with
  | nil => intro s; simp [run, runIdLog]
  | cons op ops ih =>
    intro s
    obtain ⟨hnext, hlog⟩ := step_nextContentId s op
    have hle : (step s op).nextContentId ≤ (run (step s op) ops).nextContentId :=
      run_nextContentId_le ops (step s op)
    simp only [runIdLog, run]
    rw [ih (step s op), hlog]
    have happ := List.range'_append_1 s.nextContentId (stepIdLog s op).length
      ((run (step s op) ops).nextContentId - (step s op).nextContentId)
    rw [hnext]
    rw [show (run (step s op) ops).nextContentId - (s.nextContentId + (stepIdLog s op).length)
          = (run (step s op) ops).nextContentId - (step s op).nextContentId from by omega]
    rw [happ]
    congr 1
    omega

/-! ## Reachability invariant: ids not yet assigned hold the default record -/

/-- Every id at or above `nextContentId` still holds the mapping default. -/
def UnassignedDefault (s : PaymentState) : Prop :=
  ∀ id, s.nextContentId ≤ id → s.contents id = defaultContent

theorem initPaymentState_unassigned : UnassignedDefault initPaymentState := by
  intro id _
  rfl

theorem active_lt_nextContentId {s : PaymentState} {c : Nat}
    (hs : UnassignedDefault s) (h : (s.contents c).isActive = true) :
    c < s.nextContentId := by
  by_contra hge
  have hd := hs c (by omega)
  rw [hd] at h
  simp [defaultContent] at h

theorem step_preserves_unassigned {s : PaymentState}
    (hs : UnassignedDefault s) (op : Op) : UnassignedDefault (step s op) := by
  cases op with
  | create sender creator title contentHash price timestamp =>
    simp only [step]
    cases h : ContentPayment.createContent s sender creator title contentHash price timestamp with
    | error e => exact hs
    | ok r =>
      obtain ⟨-, -, -, hr⟩ := ContentPayment.createContent_ok_elim h
      subst hr
      intro id hid
      simp only [ContentPayment.createOkState] at hid ⊢
      simp only [setContent]
      rw [if_neg (by omega)]
      exact hs id (by omega)
  | purchase buyer contentId amountPaid transferOk refundOk =>
    simp only [step]
    cases h : ContentPayment.purchaseContent s buyer contentId amountPaid transferOk refundOk with
    | error e => exact hs
    | ok r =>
      obtain ⟨-, -, -, -, -, hr⟩ := ContentPayment.purchaseContent_ok_elim h
      subst hr
      intro id hid
      simp only [ContentPayment.purchaseOkState] at hid ⊢
      exact hs id hid
  | updatePrice sender contentId newPrice =>
    simp only [step]
    cases h : ContentPayment.updateContentPrice s sender contentId newPrice with
    | error e => exact hs
    | ok s' =>
      obtain ⟨hact, -, -, hr⟩ := ContentPayment.updateContentPrice_ok_elim h
      subst hr
      have hlt := active_lt_nextContentId hs hact
      intro id hid
      simp only [ContentPayment.updatePriceOkState] at hid ⊢
      simp only [setContent]
      rw [if_neg (by omega)]
      exact hs id hid
  | deactivate sender contentId =>
    simp only [step]
    cases h : ContentPayment.deactivateContent s sender contentId with
    | error e => exact hs
    | ok s' =>
      obtain ⟨hact, -, hr⟩ := ContentPayment.deactivateContent_ok_elim h
      subst hr
      have hlt := active_lt_nextContentId hs hact
      intro id hid
      simp only [ContentPayment.deactivateOkState] at hid ⊢
      simp only [setContent]
      rw [if_neg (by omega)]
      exact hs id hid

theorem step_userAccess_mono {s : PaymentState} {u : Address} {c : Nat}
    (h : s.userAccess u c = true) (op : Op) :
    (step s op).userAccess u c = true := by
  cases op with
  | create sender creator title contentHash price timestamp =>
    simp only [step]
    cases hc : ContentPayment.createContent s sender creator title contentHash price timestamp with
    | error e => exact h
    | ok r =>
      obtain ⟨-, -, -, hr⟩ := ContentPayment.createContent_ok_elim hc
      subst hr
      simpa [ContentPayment.createOkState] using h
  | purchase buyer contentId amountPaid transferOk refundOk =>
    simp only [step]
    cases hc : ContentPayment.purchaseContent s buyer contentId amountPaid transferOk refundOk with
    | error e => exact h
    | ok r =>
      obtain ⟨-, -, -, -, -, hr⟩ := ContentPayment.purchaseContent_ok_elim hc
      subst hr
      simp only [ContentPayment.purchaseOkState, setAccess]
      split
      · rfl
      · exact h
  | updatePrice sender contentId newPrice =>
    simp only [step]
    cases hc : ContentPayment.updateContentPrice s sender contentId newPrice with
    | error e => exact h
    | ok s' =>
      obtain ⟨-, -, -, hr⟩ := ContentPayment.updateContentPrice_ok_elim hc
      subst hr
      simpa [ContentPayment.updatePriceOkState] using h
  | deactivate sender contentId =>
    simp only [step]
    cases hc : ContentPayment.deactivateContent s sender contentId with
    | error e => exact h
    | ok s' =>
      obtain ⟨-, -, hr⟩ := ContentPayment.deactivateContent_ok_elim hc
      subst hr
      simpa [ContentPayment.deactivateOkState] using h

theorem step_creator_preserved {s : PaymentState} {c : Nat}
    (hlt : c < s.nextContentId) (op : Op) :
    ((step s op).contents c).creator = (s.contents c).creator := by
  cases op with
  | create sender creator title contentHash price timestamp =>
    simp only [step]
    cases hc : ContentPayment.createContent s sender creator title contentHash price timestamp with
    | error e => rfl
    | ok r =>
      obtain ⟨-, -, -, hr⟩ := ContentPayment.createContent_ok_elim hc
      subst hr
      simp only [ContentPayment.createOkState, setContent]
      rw [if_neg (by omega)]
  | purchase buyer contentId amountPaid transferOk refundOk =>
    simp only [step]
    cases hc : ContentPayment.purchaseContent s buyer contentId amountPaid transferOk refundOk with
    | error e => rfl
    | ok r =>
      obtain ⟨-, -, -, -, -, hr⟩ := ContentPayment.purchaseContent_ok_elim hc
      subst hr
      rfl
  | updatePrice sender contentId newPrice =>
    simp only [step]
    cases hc : ContentPayment.updateContentPrice s sender contentId newPrice with
    | error e => rfl
    | ok s' =>
      obtain ⟨-, -, -, hr⟩ := ContentPayment.updateContentPrice_ok_elim hc
      subst hr
      simp only [ContentPayment.updatePriceOkState, setContent]
      split
      · next heq => rw [heq]
      · rfl
  | deactivate sender contentId =>
    simp only [step]
    cases hc : ContentPayment.deactivateContent s sender contentId with
    | error e => rfl
    | ok s' =>
      obtain ⟨-, -, hr⟩ := ContentPayment.deactivateContent_ok_elim hc
      subst hr
      simp only [ContentPayment.deactivateOkState, setContent]
      split
      · next heq => rw [heq]
      · rfl

theorem step_hasAccess_mono {s : PaymentState} {u : Address} {c : Nat}
    (hs : UnassignedDefault s) (hu : u ≠ 0)
    (h : ContentPayment.hasAccess s u c = true) (op : Op) :
    ContentPayment.hasAccess (step s op) u c = true := by
  unfold ContentPayment.hasAccess at h ⊢
  by_cases hc : (s.contents c).creator = u
  · have hclt : c < s.nextContentId := by
      by_contra hge
      have hd := hs c (by omega)
      rw [hd] at hc
      simp only [defaultContent] at hc
      exact hu hc.symm
    rw [if_pos ((step_creator_preserved hclt op).trans hc)]
  · rw [if_neg hc] at h
    have hacc := step_userAccess_mono h op
    by_cases hc' : ((step s op).contents c).creator = u
    · rw [if_pos hc']
    · rw [if_neg hc']
      exact hacc

theorem run_preserves_unassigned (ops : List Op) : ∀ {s : PaymentState},
    UnassignedDefault s → UnassignedDefault (run s ops) := by
  induction ops with
  | nil => intro s hs; exact hs
  | cons op ops ih =>
    intro s hs
    exact ih (step_preserves_unassigned hs op)

theorem run_hasAccess_mono (ops : List Op) : ∀ {s : PaymentState} {u : Address} {c : Nat},
    UnassignedDefault s → u ≠ 0 → ContentPayment.hasAccess s u c = true →
    ContentPayment.hasAccess (run s ops) u c = true := by
  induction ops with
  | nil => intro s u c _ _ h; exact h
  | cons op ops ih =>
    intro s u c hs hu h
    exact ih (step_preserves_unassigned hs op) hu (step_hasAccess_mono hs hu h op)

theorem run_append (pre post : List Op) : ∀ s : PaymentState,
    run s (pre ++ post) = run (run s pre) post := by
  induction pre with
  | nil => intro s; rfl
  | cons op pre ih =>
    intro s
    simp only [List.cons_append, run]
    exact ih (step s op)

/-! ## Concrete sample states -/

/-- A ledger state reached from deployment by one successful create:
creator 5 owns content 1 titled "Tutorial" at price 100. -/
def samplePayment : PaymentState :=
  step initPaymentState (.create 5 5 "Tutorial" "ref1" 100 0)

/-- A registry state reached from deployment by registering identity 5. -/
def sampleProfile : ProfileState :=
  match CreatorProfile.registerCreator initProfileState 0 5 "Alice" "Fashion creator" 0 with
  | .ok p => p
  | .error _ => initProfileState

/-! ## Helper lemmas for the Hub composition -/

theorem createContent_invalid_title {s : PaymentState} {sender creator : Address}
    {title contentHash : String} {price timestamp : Nat}
    (h : title.utf8ByteSize = 0) :
    ContentPayment.createContent s sender creator title contentHash price timestamp =
      .error .InvalidInput := by
  unfold ContentPayment.createContent
  rw [if_pos h]

theorem registerCreator_unregistered_error {s : ProfileState}
    {sender creator : Address} {username bio : String} {ts : Nat} {e : Err}
    (hact : (s.creators creator).isActive = false)
    (h : CreatorProfile.registerCreator s sender creator username bio ts = .error e) :
    e = .InvalidInput := by
  unfold CreatorProfile.registerCreator at h
  by_cases c1 : username.utf8ByteSize = 0
  · rw [if_pos c1] at h
    exact (Except.error.injEq _ _ ▸ h).symm
  rw [if_neg c1] at h
  by_cases c2 : 50 < username.utf8ByteSize
  · rw [if_pos c2] at h
    exact (Except.error.injEq _ _ ▸ h).symm
  rw [if_neg c2] at h
  by_cases c3 : 500 < bio.utf8ByteSize
  · rw [if_pos c3] at h
    exact (Except.error.injEq _ _ ▸ h).symm
  rw [if_neg c3] at h
  rw [if_neg (by simp [hact])] at h
  exact absurd h (by simp)

/-! ## Claims -/

/-- Claim C1, counterexample to the claim as stated: for the zero identity
`u = 0` and content id 1, for which no content record exists in the
freshly-deployed state, `hasAccess` returns `true` (the default record's
creator field equals the zero identity), not the grant-lookup result
`false`. -/
theorem hasAccess_missing_content_zero_user :
    ContentPayment.hasAccess initPaymentState 0 1 = true ∧
    initPaymentState.contents 1 = defaultContent ∧
    initPaymentState.userAccess 0 1 = false :=
  ⟨rfl, rfl, rfl⟩

/-- Claim C1 (amended): for every user `u` other than the zero identity and
every content id `c` with no stored record, `hasAccess u c` returns the
grant-lookup result; and for every user that is not the recorded creator of
`c`, `hasAccess` equals the grant lookup regardless of the record's active
flag.  (For `u = 0` and a missing record the creator-equality check matches
the default record's zero creator field and `hasAccess` returns `true`.) -/
theorem hasAccess_characterization :
    (∀ (s : PaymentState) (u : Address) (c : Nat),
      s.contents c = defaultContent → u ≠ 0 →
      ContentPayment.hasAccess s u c = s.userAccess u c)
    ∧ (∀ (s : PaymentState) (u : Address) (c : Nat),
      u ≠ (s.contents c).creator →
      ContentPayment.hasAccess s u c = s.userAccess u c) := by
  have main : ∀ (s : PaymentState) (u : Address) (c : Nat),
      u ≠ (s.contents c).creator →
      ContentPayment.hasAccess s u c = s.userAccess u c := by
    intro s u c hne
    unfold ContentPayment.hasAccess
    rw [if_neg (fun h => hne h.symm)]
  refine ⟨?_, main⟩
  intro s u c hmiss hu
  refine main s u c ?_
  rw [hmiss]
  simpa [defaultContent] using hu

/-- Witness for the amended C1 at concrete inputs. -/
theorem hasAccess_characterization_witness :
    ContentPayment.hasAccess initPaymentState 5 1 = initPaymentState.userAccess 5 1 ∧
    ContentPayment.hasAccess samplePayment 7 1 = samplePayment.userAccess 7 1 :=
  ⟨hasAccess_characterization.1 initPaymentState 5 1 rfl (by decide),
   hasAccess_characterization.2 samplePayment 7 1 (by decide)⟩

/-- Claim C2: `purchaseContent`'s preconditions are checked in source
order — active content (`NotFound`), sufficient payment
(`InsufficientPayment`), no existing grant (`AlreadyPurchased`), buyer is
not the creator (`SelfPurchaseForbidden`) — the first failing one
determines the error, and when all hold (and the external payment calls
succeed) the purchase succeeds. -/
theorem purchase_precondition_order (s : PaymentState) (b : Address)
    (c a : Nat) (tOk rOk : Bool) :
    ((s.contents c).isActive = false →
      ContentPayment.purchaseContent s b c a tOk rOk = .error .NotFound)
    ∧ ((s.contents c).isActive = true → a < (s.contents c).price →
      ContentPayment.purchaseContent s b c a tOk rOk = .error .InsufficientPayment)
    ∧ ((s.contents c).isActive = true → (s.contents c).price ≤ a →
      s.userAccess b c = true →
      ContentPayment.purchaseContent s b c a tOk rOk = .error .AlreadyPurchased)
    ∧ ((s.contents c).isActive = true → (s.contents c).price ≤ a →
      s.userAccess b c = false → b = (s.contents c).creator →
      ContentPayment.purchaseContent s b c a tOk rOk = .error .SelfPurchaseForbidden)
    ∧ ((s.contents c).isActive = true → (s.contents c).price ≤ a →
      s.userAccess b c = false → b ≠ (s.contents c).creator →
      tOk = true → rOk = true →
      isOkB (ContentPayment.purchaseContent s b c a tOk rOk) = true) := by
  refine ⟨?_, ?_, ?_, ?_, ?_⟩
  · intro h1
    unfold ContentPayment.purchaseContent
    rw [if_pos h1]
  · intro h1 h2
    unfold ContentPayment.purchaseContent
    rw [if_neg (by simp [h1]), if_pos h2]
  · intro h1 h2 h3
    unfold ContentPayment.purchaseContent
    rw [if_neg (by simp [h1]), if_neg (by omega), if_pos h3]
  · intro h1 h2 h3 h4
    unfold ContentPayment.purchaseContent
    rw [if_neg (by simp [h1]), if_neg (by omega), if_neg (by simp [h3]), if_pos h4]
  · intro h1 h2 h3 h4 h5 h6
    rw [ContentPayment.purchaseContent_ok_intro h1 h2 h3 h4 h5 (fun _ => h6)]
    rfl

/-- Witness for C2: on the fresh state content 1 is missing, so a purchase
reports `NotFound`; on `samplePayment` all preconditions hold for buyer 7,
and the purchase succeeds. -/
theorem purchase_precondition_order_witness :
    ContentPayment.purchaseContent initPaymentState 7 1 100 true true = .error .NotFound ∧
    isOkB (ContentPayment.purchaseContent samplePayment 7 1 100 true true) = true :=
  ⟨(purchase_precondition_order initPaymentState 7 1 100 true true).1 rfl,
   (purchase_precondition_order samplePayment 7 1 100 true true).2.2.2.2
     (by decide) (by decide) rfl (by decide) rfl rfl⟩

/-- Claim C3: when the preconditions of a purchase hold but the external
payment transfer (or a needed overpayment refund) fails, the whole
operation fails with `TransferFailed` and the observable state is
unchanged — the access grant written before the transfer is rolled back
and `totalRevenue` is not increased; when the external calls succeed, the
grant, the creator credit, the refund and the revenue increment all commit
together. -/
theorem purchase_atomic_on_transfer_failure (s : PaymentState) (b : Address)
    (c a : Nat) (tOk rOk : Bool)
    (hact : (s.contents c).isActive = true)
    (hpay : (s.contents c).price ≤ a)
    (hgr : s.userAccess b c = false)
    (hself : b ≠ (s.contents c).creator) :
    ((tOk = false ∨ ((s.contents c).price < a ∧ rOk = false)) →
      ContentPayment.purchaseContent s b c a tOk rOk = .error .TransferFailed ∧
      step s (.purchase b c a tOk rOk) = s)
    ∧ (tOk = true → ((s.contents c).price < a → rOk = true) →
      ContentPayment.purchaseContent s b c a tOk rOk =
        .ok (ContentPayment.purchaseOkState s b c,
             { creatorCredit := (s.contents c).price,
               buyerRefund := a - (s.contents c).price })) := by
  constructor
  · intro hfail
    have herr : ContentPayment.purchaseContent s b c a tOk rOk = .error .TransferFailed := by
      unfold ContentPayment.purchaseContent
      rw [if_neg (by simp [hact]), if_neg (by omega), if_neg (by simp [hgr]), if_neg hself]
      rcases hfail with hf | ⟨hlt, hrf⟩
      · rw [if_pos hf]
      · by_cases ht : tOk = false
        · rw [if_pos ht]
        · rw [if_neg ht, if_pos hlt, if_pos hrf]
    refine ⟨herr, ?_⟩
    simp [step, herr]
  · intro h5 h6
    exact ContentPayment.purchaseContent_ok_intro hact hpay hgr hself h5 h6

/-- Witness for C3: buyer 7 on `samplePayment`'s content 1 with a failed
transfer leaves the state unchanged; with working transfers the grant and
the revenue increment commit. -/
theorem purchase_atomic_on_transfer_failure_witness :
    (ContentPayment.purchaseContent samplePayment 7 1 150 false true = .error .TransferFailed ∧
     step samplePayment (.purchase 7 1 150 false true) = samplePayment) ∧
    ContentPayment.purchaseContent samplePayment 7 1 150 true true =
      .ok (ContentPayment.purchaseOkState samplePayment 7 1,
           { creatorCredit := (samplePayment.contents 1).price,
             buyerRefund := 150 - (samplePayment.contents 1).price }) :=
  ⟨(purchase_atomic_on_transfer_failure samplePayment 7 1 150 false true
      (by decide) (by decide) (by decide) (by decide)).1 (Or.inl rfl),
   (purchase_atomic_on_transfer_failure samplePayment 7 1 150 true true
      (by decide) (by decide) (by decide) (by decide)).2 rfl (fun _ => rfl)⟩

/-- Claim C4: on a previously-unregistered identity,
`registerAndCreateContent` with a content part that fails validation (an
empty title) fails as a whole with `InvalidInput`, and the registration
performed inside the same call is rolled back: the identity remains
unregistered. -/
theorem registerAndCreate_rollback_on_invalid_content (s : HubState)
    (sender : Address) (username bio contentHash title : String)
    (price timestamp : Nat)
    (hreg : GlamoraHub.isCreator s sender = false)
    (htitle : title.utf8ByteSize = 0) :
    GlamoraHub.registerAndCreateContent s sender username bio title contentHash price timestamp =
      .error .InvalidInput
    ∧ GlamoraHub.isCreator
        (GlamoraHub.registerAndCreateStep s sender username bio title contentHash price timestamp)
        sender = false := by
  have hreg' : CreatorProfile.isCreator s.profile sender = false := hreg
  have herr : GlamoraHub.registerAndCreateContent s sender username bio title contentHash price timestamp =
      .error .InvalidInput := by
    unfold GlamoraHub.registerAndCreateContent
    rw [if_neg (by simp [hreg'])]
    cases h : CreatorProfile.registerCreator s.profile sender sender username bio timestamp with
    | error e =>
      have he : e = .InvalidInput :=
        registerCreator_unregistered_error (by simpa [CreatorProfile.isCreator] using hreg') h
      rw [he]
    | ok p =>
      rw [createContent_invalid_title htitle]
  refine ⟨herr, ?_⟩
  unfold GlamoraHub.registerAndCreateStep
  rw [herr]
  exact hreg

/-- Witness for C4: identity 5 is unregistered on the fresh Hub state and
the title is empty. -/
theorem registerAndCreate_rollback_witness :
    GlamoraHub.registerAndCreateContent initHubState 5 "Alice" "hi" "" "ref" 100 0 =
      .error .InvalidInput ∧
    GlamoraHub.isCreator
      (GlamoraHub.registerAndCreateStep initHubState 5 "Alice" "hi" "" "ref" 100 0) 5 = false :=
  registerAndCreate_rollback_on_invalid_content initHubState 5 "Alice" "hi" "ref" "" 100 0
    rfl rfl

/-- Claim C5: a successful purchase paying `price + k` with `k > 0` credits
exactly `price` to the creator, refunds exactly `k` to the buyer, and adds
exactly `price` (not the amount paid) to `totalRevenue`. -/
theorem purchase_overpayment_refund (s : PaymentState) (b : Address)
    (c k : Nat) (tOk rOk : Bool) (s' : PaymentState)
    (eff : ContentPayment.PurchaseEffects)
    (hk : 0 < k)
    (h : ContentPayment.purchaseContent s b c ((s.contents c).price + k) tOk rOk = .ok (s', eff)) :
    eff.creatorCredit = (s.contents c).price ∧ eff.buyerRefund = k ∧
    s'.totalRevenue = s.totalRevenue + (s.contents c).price := by
  obtain ⟨-, -, -, -, -, hr⟩ := ContentPayment.purchaseContent_ok_elim h
  rw [Prod.ext_iff] at hr
  obtain ⟨hs', heff⟩ := hr
  simp only at hs' heff
  subst hs'
  subst heff
  refine ⟨rfl, by simp, ?_⟩
  simp [ContentPayment.purchaseOkState]

/-- Witness for C5 at a concrete overpaid purchase (price 100, paid 150). -/
theorem purchase_overpayment_refund_witness :
    ({ creatorCredit := (samplePayment.contents 1).price,
       buyerRefund := 150 - (samplePayment.contents 1).price } :
        ContentPayment.PurchaseEffects).buyerRefund = 50 ∧
    (ContentPayment.purchaseOkState samplePayment 7 1).totalRevenue =
      samplePayment.totalRevenue + (samplePayment.contents 1).price := by
  have h := @ContentPayment.purchaseContent_ok_intro samplePayment 7 1 150 true true
    (by decide) (by decide) (by decide) (by decide) rfl (fun _ => rfl)
  have h150 : (samplePayment.contents 1).price + 50 = 150 := by decide
  have hmain := purchase_overpayment_refund samplePayment 7 1 50 true true
    (ContentPayment.purchaseOkState samplePayment 7 1)
    ({ creatorCredit := (samplePayment.contents 1).price,
       buyerRefund := 150 - (samplePayment.contents 1).price })
    (by decide) (by rw [h150]; exact h)
  exact ⟨hmain.2.1, hmain.2.2⟩

/-- Claim C6: after any sequence of ledger calls from deployment,
`totalRevenue` equals the sum of the purchased contents' prices at the
moments the successful purchases executed; and an `updatePrice` call never
changes `totalRevenue`. -/
theorem totalRevenue_is_sum_of_purchase_prices :
    (∀ ops : List Op,
      (run initPaymentState ops).totalRevenue = (runRevenueLog initPaymentState ops).sum)
    ∧ (∀ (s : PaymentState) (sender : Address) (c p : Nat),
      (step s (.updatePrice sender c p)).totalRevenue = s.totalRevenue) := by
  constructor
  · intro ops
    have h := run_totalRevenue ops initPaymentState
    simpa [initPaymentState] using h
  · intro s sender c p
    have h := step_totalRevenue s (.updatePrice sender c p)
    simpa [stepRevenueLog] using h

/-- Claim C7: across any call sequence from deployment, the ids assigned by
successful `createContent` calls form, in order, the range starting at 1 —
strictly increasing, with no id (including 1) ever assigned twice, even
after deactivations. -/
theorem content_ids_strictly_increasing_from_one (ops : List Op) :
    runIdLog initPaymentState ops =
      List.range' 1 ((run initPaymentState ops).nextContentId - 1)
    ∧ List.Pairwise (fun x y => x < y) (runIdLog initPaymentState ops)
    ∧ (runIdLog initPaymentState ops).Nodup := by
  have h := run_idLog ops initPaymentState
  have h1 : initPaymentState.nextContentId = 1 := rfl
  rw [h1] at h
  refine ⟨h, ?_, ?_⟩
  · rw [h]
    exact List.pairwise_lt_range' 1 _
  · rw [h]
    exact List.nodup_range' 1 _

/-- Claim C8, counterexample to the claim as stated: for the zero identity,
`hasAccess 0 1` is `true` on the fresh state (default creator field), but
becomes `false` after content 1 is created by identity 5 — so `hasAccess`
is not monotone for every user. -/
theorem hasAccess_revoked_for_zero_user :
    ContentPayment.hasAccess initPaymentState 0 1 = true ∧
    ContentPayment.hasAccess (step initPaymentState (.create 5 5 "T" "h" 1 0)) 0 1 = false := by
  exact ⟨rfl, by decide⟩

/-- Claim C8 (amended): for every user `u` other than the zero identity,
once `hasAccess u c` is true on a state reachable from deployment it stays
true after every further sequence of ledger calls (no operation revokes a
grant); and after a successful deactivation `getContent` fails with
`NotFound` while everyone with access before — in particular a buyer who
purchased earlier — still has access. -/
theorem hasAccess_monotone_nonzero_user :
    (∀ (pre post : List Op) (u : Address) (c : Nat), u ≠ 0 →
      ContentPayment.hasAccess (run initPaymentState pre) u c = true →
      ContentPayment.hasAccess (run initPaymentState (pre ++ post)) u c = true)
    ∧ (∀ (s s' : PaymentState) (sender : Address) (c : Nat),
      ContentPayment.deactivateContent s sender c = .ok s' →
      ContentPayment.getContent s' c = .error .NotFound ∧
      ∀ u : Address, ContentPayment.hasAccess s u c = true →
        ContentPayment.hasAccess s' u c = true) := by
  constructor
  · intro pre post u c hu h
    rw [run_append]
    exact run_hasAccess_mono post
      (run_preserves_unassigned pre initPaymentState_unassigned) hu h
  · intro s s' sender c hde
    obtain ⟨hact, hcr, hs'⟩ := ContentPayment.deactivateContent_ok_elim hde
    subst hs'
    constructor
    · unfold ContentPayment.getContent
      rw [if_pos (by simp [ContentPayment.deactivateOkState, setContent])]
    · intro u h
      unfold ContentPayment.hasAccess at h ⊢
      simp only [ContentPayment.deactivateOkState, setContent]
      by_cases hc : (s.contents c).creator = u
      · rw [if_pos (by simp [hc])]
      · rw [if_neg hc] at h
        rw [if_neg (by simp [hc])]
        exact h

/-- Witness for the amended C8: buyer 7 purchases content 1, the creator
deactivates it, and the buyer's access survives. -/
theorem hasAccess_monotone_nonzero_user_witness :
    ContentPayment.hasAccess
      (run initPaymentState
        ([Op.create 5 5 "T" "h" 100 0, Op.purchase 7 1 100 true true] ++
         [Op.deactivate 5 1])) 7 1 = true :=
  hasAccess_monotone_nonzero_user.1
    [Op.create 5 5 "T" "h" 100 0, Op.purchase 7 1 100 true true]
    [Op.deactivate 5 1] 7 1 (by decide) (by decide)

/-- Claim C9, counterexample to the claim as stated: the ledger's
`createContent` performs no validation on the creator identity — a call
with the zero (empty) creatorId and valid title, hash and price succeeds
instead of failing with `InvalidInput`. -/
theorem createContent_zero_creator_succeeds :
    isOkB (ContentPayment.createContent initPaymentState 9 0 "T" "h" 1 0) = true := by
  decide

/-- Claim C9 (amended): the ledger's `createContent` does not validate the
creatorId at all — for every creator identity, including the zero (empty)
one, a call with valid title, contentRef and price succeeds; creator
enforcement lives only at the Hub boundary. -/
theorem createContent_no_creator_validation (s : PaymentState)
    (sender creator : Address) (title contentHash : String)
    (price timestamp : Nat)
    (ht : title.utf8ByteSize ≠ 0) (hh : contentHash.utf8ByteSize ≠ 0)
    (hp : price ≠ 0) :
    isOkB (ContentPayment.createContent s sender creator title contentHash price timestamp) = true := by
  rw [ContentPayment.createContent_ok_intro ht hh hp]
  rfl

/-- Witness for the amended C9 at the zero creator identity. -/
theorem createContent_no_creator_validation_witness :
    isOkB (ContentPayment.createContent initPaymentState 9 0 "Song" "Qm1" 5 0) = true :=
  createContent_no_creator_validation initPaymentState 9 0 "Song" "Qm1" 5 0
    (by decide) (by decide) (by decide)

/-- Claim C10: `registerCreator` and the ledger's `createContent` never
read the calling account — any two callers get identical results and
states from equal arguments, so any account can register any identity or
create content attributed to any creator by calling the sub-contracts
directly, bypassing the Hub's registered-creator gate; by contrast
`updateCreator`, `updateContentPrice` and `deactivateContent` authorize
against the caller and do distinguish callers. -/
theorem subcontract_caller_independence :
    (∀ (s : ProfileState) (a b creator : Address) (username bio : String) (ts : Nat),
      CreatorProfile.registerCreator s a creator username bio ts =
        CreatorProfile.registerCreator s b creator username bio ts)
    ∧ (∀ (s : PaymentState) (a b creator : Address) (title contentHash : String) (price ts : Nat),
      ContentPayment.createContent s a creator title contentHash price ts =
        ContentPayment.createContent s b creator title contentHash price ts)
    ∧ (isOkB (CreatorProfile.updateCreator sampleProfile 5 "x" "y") = true ∧
       isOkB (CreatorProfile.updateCreator sampleProfile 6 "x" "y") = false)
    ∧ (isOkB (ContentPayment.updateContentPrice samplePayment 5 1 7) = true ∧
       isOkB (ContentPayment.updateContentPrice samplePayment 6 1 7) = false)
    ∧ (isOkB (ContentPayment.deactivateContent samplePayment 5 1) = true ∧
       isOkB (ContentPayment.deactivateContent samplePayment 6 1) = false)
    ∧ (CreatorProfile.isCreator initProfileState 7 = false ∧
       isOkB (ContentPayment.createContent initPaymentState 9 7 "T" "h" 1 0) = true ∧
       isOkB (GlamoraHub.createContent initHubState 7 "T" "h" 1 0) = false) :=
  ⟨fun _ _ _ _ _ _ _ => rfl, fun _ _ _ _ _ _ _ _ => rfl,
   by decide, by decide, by decide, by decide⟩
